import Mathlib

/-!
Shallow embedding of the scraping pipeline of this repository
(src/scraper.py, src/utils.py, src/config.py) and proofs about it.

Modelling conventions:
  * An HTML tag found by select_one is a Tag: its visible text plus its
    attribute map.  A Container records, for each per-field selector chain
    of extract_product_info, what select_one returned (none when no selector
    of that field's chain matched).
  * A Python dict literal with string keys and string values is an ordered
    association list (Python dicts preserve insertion order).
  * Network and clock effects are passed in explicitly: get_page receives
    the outcome each HTTP attempt would observe, extract_product_info
    receives the current instant as a string, the cache functions receive
    the current time in seconds.
-/

namespace Scraper

/-- Result of a successful select_one: the tag's stripped-able visible text
and its attribute map (read with bracket access in the source, which raises
KeyError when the attribute is absent — modelled as an Option lookup). -/
structure Tag where
  text : String
  attrs : List (String × String)
deriving Repr, DecidableEq

/-- Per-field select_one outcomes for one product container, as observed by
FlipkartScraper.extract_product_info / AmazonScraper.extract_product_info
(src/scraper.py lines 163-169 and 243-249): none means no selector of that
field's chain matched inside the container. -/
structure Container where
  title : Option Tag
  description : Option Tag
  price : Option Tag
  rating : Option Tag
  reviews : Option Tag
  link : Option Tag
  image : Option Tag
deriving Repr, DecidableEq

/-- A product record: the dict literal built by extract_product_info, kept as
an ordered association list from key to string value. -/
abbrev Record := List (String × String)

/-- Python str whitespace for the ASCII range: space, tab, newline, carriage
return, vertical tab, form feed. -/
def isPySpace (c : Char) : Bool :=
  c = ' ' || c = '\t' || c = '\n' || c = '\r' || c = Char.ofNat 11 || c = Char.ofNat 12

/-- Python str.strip(): remove leading and trailing whitespace. -/
def pyStrip (s : String) : String :=
  String.mk (((s.toList.dropWhile isPySpace).reverse.dropWhile isPySpace).reverse)

/-- Characters allowed after the first character of a URI scheme. -/
def isSchemeChar (c : Char) : Bool :=
  c.isAlphanum || c = '+' || c = '-' || c = '.'

/-- Split a leading URI scheme off a character list: some (scheme, rest) when
the list starts with a letter, then scheme characters, then a colon;
none otherwise.  Models the scheme detection of urllib.parse.urlsplit. -/
def splitScheme (s : List Char) : Option (List Char × List Char) :=
  match s with
  | [] => none
  | c :: rest =>
    if c.isAlpha then
      match rest.dropWhile isSchemeChar with
      | d :: tail =>
        if d = ':' then some (c :: rest.takeWhile isSchemeChar, tail) else none
      | [] => none
    else none

/-- ASCII lowercase of one character (urlsplit lowercases the scheme). -/
def lowerChar (c : Char) : Char :=
  if 65 ≤ c.toNat && c.toNat ≤ 90 then Char.ofNat (c.toNat + 32) else c

/-- Characters that terminate the network-location part of a URL. -/
def isNetlocDelim (c : Char) : Bool :=
  c = '/' || c = '?' || c = '#'

/-- Components of urllib.parse.urlparse: scheme, netloc, path, params,
query, fragment (urlsplit results leave params empty). -/
structure PyURL where
  scheme : List Char
  netloc : List Char
  path : List Char
  params : List Char
  query : List Char
  fragment : List Char
deriving Repr, DecidableEq

/-- Split at the first occurrence of a delimiter: the part before it and,
when the delimiter occurs, the part after it (Python s.split(d, 1)). -/
def splitOnFirst (delim : Char) : List Char → List Char × Option (List Char)
  | [] => ([], none)
  | c :: rest =>
    if c = delim then ([], some rest)
    else
      let r := splitOnFirst delim rest
      (c :: r.1, r.2)

/-- Python s.split(d): split at every occurrence of the delimiter; the empty
string yields one empty segment. -/
def splitAll (delim : Char) : List Char → List (List Char)
  | [] => [[]]
  | c :: rest =>
    let r := splitAll delim rest
    if c = delim then [] :: r
    else
      match r with
      | [] => [[c]]
      | seg :: segs => (c :: seg) :: segs

/-- Python d.join(segments). -/
def joinWith (delim : Char) : List (List Char) → List Char
  | [] => []
  | [seg] => seg
  | seg :: rest => seg ++ delim :: joinWith delim rest

/-- The parameter-splitting helper of urllib.parse (its internal function
named with a leading underscore and the suffix splitparams): parameters are
split off the last path segment at that segment's first semicolon. -/
def splitParams (path : List Char) : List Char × List Char :=
  let lastSeg := (path.reverse.takeWhile fun c => c ≠ '/').reverse
  let front := (path.reverse.dropWhile fun c => c ≠ '/').reverse
  match splitOnFirst ';' lastSeg with
  | (_, none) => (path, [])
  | (before, some after) => (front ++ before, after)

/-- urllib.parse.uses_relative: schemes that support relative references. -/
def uses_relative : List String :=
  ["", "ftp", "http", "gopher", "nntp", "imap", "wais", "file", "https",
   "shttp", "mms", "prospero", "rtsp", "rtspu", "sftp", "svn", "svn+ssh",
   "ws", "wss"]

/-- urllib.parse.uses_netloc: schemes that use a network location. -/
def uses_netloc : List String :=
  ["", "ftp", "http", "gopher", "nntp", "telnet", "imap", "wais", "file",
   "mms", "https", "shttp", "snews", "prospero", "rtsp", "rtspu", "rsync",
   "svn", "svn+ssh", "sftp", "nfs", "git", "git+ssh", "ws", "wss"]

/-- urllib.parse.uses_params: schemes that support last-segment parameters. -/
def uses_params : List String :=
  ["", "ftp", "hdl", "prospero", "http", "imap", "https", "shttp", "rtsp",
   "rtspu", "sip", "sips", "mms", "sftp", "tel"]

/-- Scheme detection of urlsplit: a leading valid scheme is split off and
lowercased, otherwise the default scheme passed by the caller is used. -/
def schemeSplit (url schemeDefault : List Char) : List Char × List Char :=
  match splitScheme url with
  | some (sch, tail) => (sch.map lowerChar, tail)
  | none => (schemeDefault, url)

/-- Netloc detection of urlsplit: after a leading double slash, the netloc
runs until the first slash, question mark or hash. -/
def netlocSplit (l : List Char) : List Char × List Char :=
  if l.take 2 = ['/', '/'] then
    ((l.drop 2).takeWhile (fun c => !isNetlocDelim c),
     (l.drop 2).dropWhile (fun c => !isNetlocDelim c))
  else ([], l)

/-- Python url.split(d, 1) with the after-part defaulting to empty: used by
urlsplit for the fragment (hash) and query (question mark) components. -/
def splitOff (delim : Char) (l : List Char) : List Char × List Char :=
  let r := splitOnFirst delim l
  match r.2 with
  | some after => (r.1, after)
  | none => (r.1, [])

/-- urllib.parse.urlsplit with a caller-supplied default scheme and
allow_fragments true, on character lists: scheme, then netloc, then the
fragment split at the first hash, then the query split at the first question
mark.  The version-dependent whitespace and control-character sanitisation
of urlsplit is not modelled; the theorems below quantify only over URLs free
of such characters. -/
def urlsplitChars (url schemeDefault : List Char) : PyURL :=
  let s := schemeSplit url schemeDefault
  let n := netlocSplit s.2
  let f := splitOff '#' n.2
  let q := splitOff '?' f.1
  { scheme := s.1, netloc := n.1, path := q.1, params := [], query := q.2,
    fragment := f.2 }

/-- urllib.parse.urlparse: urlsplit plus parameter splitting for schemes
that use parameters. -/
def urlparseChars (url schemeDefault : List Char) : PyURL :=
  let s := urlsplitChars url schemeDefault
  if String.mk s.scheme ∈ uses_params ∧ ';' ∈ s.path then
    { s with path := (splitParams s.path).1, params := (splitParams s.path).2 }
  else s

/-- urllib.parse.urlunsplit on character lists. -/
def urlunsplitChars (scheme netloc path query fragment : List Char) :
    List Char :=
  let u1 :=
    if netloc ≠ [] ∨ path.take 2 = ['/', '/'] then
      ['/', '/'] ++ netloc ++
        (if path ≠ [] ∧ path.head? ≠ some '/' then '/' :: path else path)
    else path
  let u2 := if scheme ≠ [] then scheme ++ ':' :: u1 else u1
  let u3 := if query ≠ [] then u2 ++ '?' :: query else u2
  if fragment ≠ [] then u3 ++ '#' :: fragment else u3

/-- urllib.parse.urlunparse: parameters are rejoined to the path with a
semicolon, then the result is unsplit. -/
def urlunparseChars (u : PyURL) : List Char :=
  let p := if u.params ≠ [] then u.path ++ ';' :: u.params else u.path
  urlunsplitChars u.scheme u.netloc p u.query u.fragment

/-- The dot-segment resolution loop of urljoin: double-dot segments pop the
previously resolved segment (silently on empty), single-dot segments are
dropped, and a trailing dot segment re-appends an empty segment so the
joined path keeps its trailing slash. -/
def resolveSegments (segments : List (List Char)) : List (List Char) :=
  let r := segments.foldl
    (fun acc seg =>
      if seg = ['.', '.'] then acc.dropLast
      else if seg = ['.'] then acc
      else acc ++ [seg]) []
  if segments.getLast? = some ['.', '.'] ∨ segments.getLast? = some ['.']
  then r ++ [[]]
  else r

/-- Keep the final element, dropping empty segments before it: the merge
step of urljoin filters empty strings out of segments[1:-1]. -/
def filterLast : List (List Char) → List (List Char)
  | [] => []
  | [x] => [x]
  | x :: rest => if x = [] then filterLast rest else x :: filterLast rest

/-- Python segments[1:-1] = filter(None, segments[1:-1]): drop empty
segments, keeping the first and last elements even when empty. -/
def filterMiddle : List (List Char) → List (List Char)
  | [] => []
  | [x] => [x]
  | x :: rest => x :: filterLast rest

/-- urllib.parse.urljoin, following the CPython algorithm: empty base or
reference short-circuits; the reference is parsed with the base's scheme as
default; a reference whose scheme differs from the base's (or falls outside
uses_relative) is returned unchanged; a reference carrying its own authority
is reassembled as is; an empty path inherits the base's path, parameters
and (when the reference has none) query; a rooted reference path supplies
the segments alone, an unrooted one is appended to the base path's leading
segments with empty middle segments filtered out; dot segments are resolved
and the result reassembled with urlunparse (an all-empty join becomes the
root path).  The whitespace/control-character sanitisation and the
non-ASCII netloc validation of urllib.parse are not modelled; the theorems
below quantify only over URLs they would leave unchanged. -/
def urljoin (base url : String) : String :=
  if base = "" then url
  else if url = "" then base
  else
    let b := urlparseChars base.toList []
    let u := urlparseChars url.toList b.scheme
    if u.scheme ≠ b.scheme ∨ String.mk u.scheme ∉ uses_relative then url
    else
      let inNetloc := String.mk u.scheme ∈ uses_netloc
      if inNetloc ∧ u.netloc ≠ [] then String.mk (urlunparseChars u)
      else
        let netloc := if inNetloc then b.netloc else u.netloc
        if u.path = [] ∧ u.params = [] then
          let query := if u.query = [] then b.query else u.query
          String.mk (urlunparseChars
            { u with netloc := netloc, path := b.path, params := b.params,
                     query := query })
        else
          let bp0 := splitAll '/' b.path
          let base_parts :=
            if bp0.getLast? ≠ some [] then bp0.dropLast else bp0
          let segments :=
            if u.path.take 1 = ['/'] then splitAll '/' u.path
            else filterMiddle (base_parts ++ splitAll '/' u.path)
          let joined := joinWith '/' (resolveSegments segments)
          let path := if joined = [] then ['/'] else joined
          String.mk (urlunparseChars { u with netloc := netloc, path := path })

/-- Core of extract_product_info, shared verbatim (up to base URL and
platform name) by the Flipkart and Amazon scrapers (src/scraper.py lines
159-189 and 239-269): if any of title, price, link is missing the container
yields no record; reading the href of the link tag or the src of a present
image tag raises KeyError when the attribute is absent, which the enclosing
try/except turns into no record; every other missing field falls back to its
default. -/
def extractCore (baseURL platform now : String) (c : Container) : Option Record :=
  match c.title, c.price, c.link with
  | some t, some p, some l =>
    match l.attrs.lookup "href" with
    | none => none
    | some href =>
      match c.image with
      | some img =>
        match img.attrs.lookup "src" with
        | none => none
        | some src => some
            [("title", pyStrip t.text),
             ("description", match c.description with
               | some d => pyStrip d.text
               | none => ""),
             ("price", pyStrip p.text),
             ("rating", match c.rating with
               | some r => pyStrip r.text
               | none => "No rating"),
             ("reviews", match c.reviews with
               | some r => pyStrip r.text
               | none => "No reviews"),
             ("link", urljoin baseURL href),
             ("image", src),
             ("timestamp", now),
             ("platform", platform)]
      | none => some
            [("title", pyStrip t.text),
             ("description", match c.description with
               | some d => pyStrip d.text
               | none => ""),
             ("price", pyStrip p.text),
             ("rating", match c.rating with
               | some r => pyStrip r.text
               | none => "No rating"),
             ("reviews", match c.reviews with
               | some r => pyStrip r.text
               | none => "No reviews"),
             ("link", urljoin baseURL href),
             ("image", ""),
             ("timestamp", now),
             ("platform", platform)]
  | _, _, _ => none

namespace FlipkartScraper

def BASE_URL : String := "https://www.flipkart.com"

/-- FlipkartScraper.extract_product_info (src/scraper.py lines 159-189). -/
def extract_product_info (now : String) (c : Container) : Option Record :=
  extractCore BASE_URL "Flipkart" now c

end FlipkartScraper

namespace AmazonScraper

def BASE_URL : String := "https://www.amazon.in"

/-- AmazonScraper.extract_product_info (src/scraper.py lines 239-269). -/
def extract_product_info (now : String) (c : Container) : Option Record :=
  extractCore BASE_URL "Amazon" now c

end AmazonScraper

/-- What one HTTP attempt inside get_page observes: a response with a status
code and body, or a transport exception. -/
inductive AttemptResult where
  | resp (status : Nat) (body : String)
  | exn
deriving Repr, DecidableEq

/-- Value of max_retries in EcommerceScraper.get_page (src/scraper.py line 57). -/
def max_retries : Nat := 3

/-- The retry loop of EcommerceScraper.get_page (src/scraper.py lines 58-78),
over the list of outcomes the successive attempts would observe, carrying the
current attempt index.  Returns the (body, status) pair together with the
number of attempts actually performed.  Status 200 returns the body at once;
status 429 sleeps and retries; any other status returns an empty body and
that status; an exception retries while attempt is below max_retries minus
one and otherwise returns an empty body with 500. -/
def get_page_loop (outcomes : List AttemptResult) (attempt : Nat) :
    (String × Nat) × Nat :=
  match outcomes with
  | [] => (("", 500), 0)
  | a :: rest =>
    match a with
    | .resp s body =>
      if s = 200 then ((body, s), 1)
      else if s = 429 then
        let r := get_page_loop rest (attempt + 1)
        (r.1, r.2 + 1)
      else (("", s), 1)
    | .exn =>
      if attempt < max_retries - 1 then
        let r := get_page_loop rest (attempt + 1)
        (r.1, r.2 + 1)
      else (("", 500), 1)

/-- EcommerceScraper.get_page (src/scraper.py lines 55-79): the for loop runs
over at most max_retries attempts; falling off the loop returns an empty body
with status 500 (line 79). -/
def get_page (outcomes : List AttemptResult) : String × Nat :=
  (get_page_loop (outcomes.take max_retries) 0).1

/-- Number of HTTP attempts a call to get_page performs. -/
def get_page_attempts (outcomes : List AttemptResult) : Nat :=
  (get_page_loop (outcomes.take max_retries) 0).2

/-- Container-selector loop of get_products (src/scraper.py lines 142-150 and
222-230), over the list of select results of the declared selector chain, in
order: the first selector returning a non-empty container list supplies the
whole list and the loop breaks; when every selector returns an empty list the
loop falls through and no container is used.  Returns the chosen container
list together with the number of selectors evaluated. -/
def pickContainers : List (List Container) → List Container × Nat
  | [] => ([], 0)
  | cs :: rest =>
    if cs.isEmpty then
      let r := pickContainers rest
      (r.1, r.2 + 1)
    else (cs, 1)

/-- Products extracted from one fetched page by get_products after a 200
response: the containers of the first matching selector, each passed through
extract_product_info, keeping the records in container order. -/
def productsFromPage (baseURL platform now : String)
    (selects : List (List Container)) : List Record :=
  (pickContainers selects).1.filterMap (extractCore baseURL platform now)

/-- Shared body of FlipkartScraper.get_products and AmazonScraper.get_products
(src/scraper.py lines 111-157 and 196-237) after the fetch: on a non-200
status the category yields an empty list and that status; on 200 the page is
parsed and the selector loop plus extraction produce the records.  The fetched
page is abstracted as the select results of the container selector chain. -/
def get_products_core (baseURL platform now : String)
    (fetched : List (List Container) × Nat) : List Record × Nat :=
  if fetched.2 ≠ 200 then ([], fetched.2)
  else (productsFromPage baseURL platform now fetched.1, fetched.2)

/-- Categories from config.PRODUCT_CATEGORIES (src/config.py lines 17-23). -/
def PRODUCT_CATEGORIES : List String :=
  ["laptops", "smartphones", "headphones", "smartwatches", "tablets"]

/-- Value of config.DEFAULT_PRODUCTS_COUNT (src/config.py line 26). -/
def DEFAULT_PRODUCTS_COUNT : Nat := 5

/-- The category loop of scrape_products (src/scraper.py lines 282-291), with
the per-category scrape abstracted as a function from category to the record
list get_products returns (the status component is ignored by the loop).
Accumulates records in category order; a category yielding an empty list is
skipped and iteration continues; once the accumulated length reaches
num_products the loop breaks.  Returns the accumulated records together with
the list of categories for which the scraper was invoked, in order. -/
def scrapeGo (gp : String → List Record) (num : Nat) :
    List String → List Record → List Record × List String
  | [], acc => (acc, [])
  | c :: cs, acc =>
    let ps := gp c
    if ps.isEmpty then
      let r := scrapeGo gp num cs acc
      (r.1, c :: r.2)
    else
      let acc2 := acc ++ ps
      if num ≤ acc2.length then (acc2, [c])
      else
        let r := scrapeGo gp num cs acc2
        (r.1, c :: r.2)

/-- scrape_products (src/scraper.py lines 277-293): runs the category loop
over the configured category list and returns the first num_products
accumulated records.  Returns also the list of categories queried. -/
def scrape_products (gp : String → List Record) (num : Nat)
    (cats : List String) : List Record × List String :=
  let r := scrapeGo gp num cats []
  (r.1.take num, r.2)

/-- Mapping stored in the cache file: the products dict passed to
save_to_cache, as an association list. -/
abbrev ProductsMap := List (String × List Record)

/-- Cache envelope written by save_to_cache (src/scraper.py lines 97-100):
the write instant (modelled in seconds) together with the products mapping. -/
structure Cache where
  timestamp : Int
  products : ProductsMap
deriving Repr, DecidableEq

/-- The cache file as load_product_cache observes it: absent, present but
unreadable or unparsable (open, json.load or fromisoformat raises), or
successfully parsed into an envelope. -/
inductive CacheFile where
  | missing
  | corrupt
  | ok (c : Cache)
deriving Repr, DecidableEq

/-- Value of config.CACHE_EXPIRY_DAYS (src/config.py line 14). -/
def CACHE_EXPIRY_DAYS : Int := 1

def SECONDS_PER_DAY : Int := 86400

/-- EcommerceScraper.load_product_cache (src/scraper.py lines 81-92): a
missing file skips the read, any exception is swallowed, and the products are
returned only when the stored timestamp plus the expiry window is strictly
later than now; every other path returns the empty mapping. -/
def load_product_cache (file : CacheFile) (now : Int) : ProductsMap :=
  match file with
  | .missing => []
  | .corrupt => []
  | .ok c =>
    if c.timestamp + CACHE_EXPIRY_DAYS * SECONDS_PER_DAY > now then c.products
    else []

/-- EcommerceScraper.save_to_cache (src/scraper.py lines 94-104): overwrites
the cache file with a fresh envelope stamped with the current instant (the
swallowed write-failure path leaves the file unchanged and is not needed by
any claim about a completed write). -/
def save_to_cache (products : ProductsMap) (now : Int) : CacheFile :=
  .ok { timestamp := now, products := products }

/-- File-state-passing embedding of a whole scrape_products call
(src/scraper.py lines 277-293): the body accumulates records and truncates;
it contains no call to save_to_cache (no statement in the function, nor in
any caller in src/bot.py, writes the cache), so the cache file content after
the call equals the content before it. -/
def scrape_products_io (gp : String → List Record) (num : Nat)
    (cats : List String) (file : CacheFile) :
    (List Record × List String) × CacheFile :=
  (scrape_products gp num cats, file)

end Scraper

namespace Utils

/-- Value of config.EARNKARO_TRACKING_ID (src/config.py line 10). -/
def EARNKARO_TRACKING_ID : String := "4310721"

/-- Always-safe characters of urllib.parse.quote plus its default safe set,
the slash: ASCII letters, digits, underscore, dot, hyphen, tilde, slash. -/
def isQuoteSafe (b : UInt8) : Bool :=
  (65 ≤ b && b ≤ 90) || (97 ≤ b && b ≤ 122) || (48 ≤ b && b ≤ 57) ||
  b = 95 || b = 46 || b = 45 || b = 126 || b = 47

/-- Upper-case hexadecimal digit of a value below 16. -/
def hexDigit (n : Nat) : Char :=
  if n < 10 then Char.ofNat (48 + n) else Char.ofNat (55 + n)

/-- Percent-encoding of one UTF-8 byte under urllib.parse.quote. -/
def quoteByte (b : UInt8) : String :=
  if isQuoteSafe b then String.mk [Char.ofNat b.toNat]
  else String.mk ['%', hexDigit (b.toNat / 16), hexDigit (b.toNat % 16)]

/-- urllib.parse.quote with its default safe set, over the UTF-8 bytes of
the string. -/
def pyQuote (s : String) : String :=
  String.join (s.toList.map fun c =>
    String.join ((String.utf8EncodeChar c).map quoteByte))

/-- generate_affiliate_link (src/utils.py lines 22-30): a URL not starting
with http is prefixed with the Flipkart base, then the EarnKaro link is
assembled; the function is total, so the except branch returning the original
URL is never taken for a string input. -/
def generate_affiliate_link (product_url : String) : String :=
  let u := if product_url.startsWith "http" then product_url
           else "https://www.flipkart.com" ++ product_url
  "https://earnkaro.com/flipkart?url=" ++
    (pyQuote u ++ ("&subid=" ++ EARNKARO_TRACKING_ID))

end Utils

namespace Scraper

/-- Python str.lower restricted to ASCII, as applied to the platform argument
of get_scraper (src/scraper.py line 273). -/
def pyLower (s : String) : String :=
  String.mk (s.toList.map fun c =>
    if 65 ≤ c.toNat && c.toNat ≤ 90 then Char.ofNat (c.toNat + 32) else c)

/-- get_scraper (src/scraper.py lines 271-275) composed with the chosen
scraper's get_products: the Amazon scraper is used exactly when the lowered
platform string is amazon, otherwise the Flipkart scraper. -/
def platform_get_products (platform now : String)
    (fetched : List (List Container) × Nat) : List Record × Nat :=
  if pyLower platform = "amazon" then
    get_products_core AmazonScraper.BASE_URL "Amazon" now fetched
  else
    get_products_core FlipkartScraper.BASE_URL "Flipkart" now fetched

/-- Whole-pipeline embedding of scrape_products for a chosen platform: each
category's fetched page (select results plus HTTP status) feeds the platform
scraper's get_products, and the category loop accumulates the results. -/
def scrape_products_pipeline (platform now : String)
    (pages : String → List (List Container) × Nat) (num : Nat)
    (cats : List String) : List Record × List String :=
  scrape_products (fun c => (platform_get_products platform now (pages c)).1)
    num cats

end Scraper

namespace Scraper

/-- Record key list common to both platforms, in dict-literal order. -/
def RECORD_KEYS : List String :=
  ["title", "description", "price", "rating", "reviews", "link", "image",
   "timestamp", "platform"]

/-- Concrete record used in examples: a one-entry association list. -/
def recOf (s : String) : Record := [("title", s)]

/-- Concrete per-category yields for the orchestration example of the spec:
category A yields 3 records, B yields 4, C yields 1. -/
def gpABC : String → List Record := fun c =>
  if c = "A" then [recOf "A0", recOf "A1", recOf "A2"]
  else if c = "B" then [recOf "B0", recOf "B1", recOf "B2", recOf "B3"]
  else [recOf "C0"]

/-- Concrete per-category yields where A yields nothing and B yields one. -/
def gpZero : String → List Record := fun c =>
  if c = "B" then [recOf "B0"] else []

/-- Concrete title tag with surrounding whitespace. -/
def tagTitle : Tag := { text := "  Phone X ", attrs := [] }

/-- Concrete price tag. -/
def tagPrice : Tag := { text := "999", attrs := [] }

/-- Concrete link tag carrying a relative href. -/
def tagLink : Tag := { text := "", attrs := [("href", "/p/1")] }

/-- Concrete container in which only the three required fields matched. -/
def containerRequiredOnly : Container :=
  { title := some tagTitle, description := none, price := some tagPrice,
    rating := none, reviews := none, link := some tagLink, image := none }

/-- Concrete container missing its title. -/
def containerNoTitle : Container :=
  { containerRequiredOnly with title := none }

/-- Concrete page function: every category fetches with status 200 a page
whose first container selector matches exactly one container. -/
def pagesOneContainer : String → List (List Container) × Nat :=
  fun _ => ([[containerRequiredOnly]], 200)

/-- The record the Flipkart extractor emits for containerRequiredOnly at
instant T0. -/
def recPhoneFK : Record :=
  [("title", "Phone X"), ("description", ""), ("price", "999"),
   ("rating", "No rating"), ("reviews", "No reviews"),
   ("link", "https://www.flipkart.com/p/1"), ("image", ""),
   ("timestamp", "T0"), ("platform", "Flipkart")]

end Scraper

namespace Scraper

theorem length_take_le_left (n : Nat) (l : List Record) :
    (l.take n).length ≤ n := by
  simp

theorem mem_of_mem_scrapeGo (gp : String → List Record) (num : Nat) :
    ∀ (cats : List String) (acc : List Record) (r : Record),
      r ∈ (scrapeGo gp num cats acc).1 → r ∈ acc ∨ ∃ c ∈ cats, r ∈ gp c := by
  intro cats
  induction cats with
  | nil => intro acc r hr; exact Or.inl hr
  | cons c cs ih =>
    intro acc r hr
    unfold scrapeGo at hr
    by_cases he : (gp c).isEmpty
    · rw [if_pos he] at hr
      rcases ih acc r hr with h | ⟨d, hd, hrd⟩
      · exact Or.inl h
      · exact Or.inr ⟨d, List.mem_cons_of_mem c hd, hrd⟩
    · rw [if_neg he] at hr
      by_cases hn : num ≤ (acc ++ gp c).length
      · rw [if_pos hn] at hr
        rcases List.mem_append.mp hr with h | h
        · exact Or.inl h
        · exact Or.inr ⟨c, List.mem_cons_self c cs, h⟩
      · rw [if_neg hn] at hr
        rcases ih (acc ++ gp c) r hr with h | ⟨d, hd, hrd⟩
        · rcases List.mem_append.mp h with h1 | h1
          · exact Or.inl h1
          · exact Or.inr ⟨c, List.mem_cons_self c cs, h1⟩
        · exact Or.inr ⟨d, List.mem_cons_of_mem c hd, hrd⟩

theorem mem_of_mem_scrape_products (gp : String → List Record) (num : Nat)
    (cats : List String) (r : Record)
    (hr : r ∈ (scrape_products gp num cats).1) : ∃ c ∈ cats, r ∈ gp c := by
  unfold scrape_products at hr
  have h1 : r ∈ (scrapeGo gp num cats []).1 := List.mem_of_mem_take hr
  rcases mem_of_mem_scrapeGo gp num cats [] r h1 with h | h
  · cases h
  · exact h

/-- C1: a fetch observing HTTP 429 on all three attempts returns an empty
body with the sentinel status 500 (src/scraper.py line 79), performing
exactly three attempts (and, the embedding being total, without raising);
a fetch observing 429 on the first two attempts and 200 on the third
returns the 200 body and its status after exactly three attempts. -/
theorem get_page_persistent_429_and_recovery (b1 b2 b3 b : String) :
    get_page [.resp 429 b1, .resp 429 b2, .resp 429 b3] = ("", 500) ∧
    get_page_attempts [.resp 429 b1, .resp 429 b2, .resp 429 b3] = 3 ∧
    get_page [.resp 429 b1, .resp 429 b2, .resp 200 b] = (b, 200) ∧
    get_page_attempts [.resp 429 b1, .resp 429 b2, .resp 200 b] = 3 := by
  exact ⟨rfl, rfl, rfl, rfl⟩

/-- C1 counterexample: when all three attempts observe 429, get_page returns
the pair of empty body and 500, which differs from the pair of empty body
and the last observed status 429 stated by the claim. -/
theorem get_page_persistent_429_not_429 :
    get_page [.resp 429 "r1", .resp 429 "r2", .resp 429 "r3"] = ("", 500) ∧
    get_page [.resp 429 "r1", .resp 429 "r2", .resp 429 "r3"] ≠ ("", 429) := by
  exact ⟨rfl, by decide⟩

theorem scrapeGo_flatten (gp : String → List Record) (num : Nat) :
    ∀ (cats : List String) (acc : List Record),
      (scrapeGo gp num cats acc).1 =
        acc ++ ((scrapeGo gp num cats acc).2.map gp).flatten := by
  intro cats
  induction cats with
  | nil => intro acc; simp [scrapeGo]
  | cons c cs ih =>
    intro acc
    by_cases he : (gp c).isEmpty
    · have hgc : gp c = [] := by simpa using he
      simp [scrapeGo, he, ih acc, hgc]
    · by_cases hn : num ≤ acc.length + (gp c).length
      · simp [scrapeGo, he, hn]
      · simp [scrapeGo, he, hn, ih (acc ++ gp c)]

/-- C2: the category loop returns at most num_products records, and what it
returns is the in-order concatenation of the queried categories' yields
(no reordering, no dedup) truncated to num_products; on the spec's example
(A yields 3, B yields 4, C yields 1, target 5) it returns exactly the
records A0 A1 A2 B0 B1 in order, queries only categories A and B, and never
invokes the scraper for C; and a category yielding zero records does not
halt iteration (A yields 0, B yields 1, target 1 returns the B record after
querying A then B). -/
theorem scrape_products_accumulation :
    (∀ (gp : String → List Record) (num : Nat) (cats : List String),
       (scrape_products gp num cats).1.length ≤ num) ∧
    (∀ (gp : String → List Record) (num : Nat) (cats : List String),
       (scrape_products gp num cats).1 =
         (((scrape_products gp num cats).2.map gp).flatten).take num) ∧
    scrape_products gpABC 5 ["A", "B", "C"] =
      ([recOf "A0", recOf "A1", recOf "A2", recOf "B0", recOf "B1"],
       ["A", "B"]) ∧
    "C" ∉ (scrape_products gpABC 5 ["A", "B", "C"]).2 ∧
    scrape_products gpZero 1 ["A", "B", "C"] = ([recOf "B0"], ["A", "B"]) := by
  refine ⟨?_, ?_, by decide, by decide, by decide⟩
  · intro gp num cats
    unfold scrape_products
    exact length_take_le_left num _
  · intro gp num cats
    simp [scrape_products, scrapeGo_flatten gp num cats []]

end Scraper

namespace Scraper

/-- C3: a container missing any of title, price, link yields no record on
either platform; a container in which all three matched (with a usable href)
but whose description, rating, reviews and image selectors all missed is
emitted with the defaults: empty description, No rating, No reviews, empty
image. -/
theorem extract_requires_title_price_link (now : String) (c : Container) :
    ((c.title = none ∨ c.price = none ∨ c.link = none) →
       FlipkartScraper.extract_product_info now c = none ∧
       AmazonScraper.extract_product_info now c = none) ∧
    (∀ (t p l : Tag) (href : String),
       c.title = some t → c.price = some p → c.link = some l →
       l.attrs.lookup "href" = some href → c.description = none →
       c.rating = none → c.reviews = none → c.image = none →
       FlipkartScraper.extract_product_info now c = some
         [("title", pyStrip t.text), ("description", ""),
          ("price", pyStrip p.text), ("rating", "No rating"),
          ("reviews", "No reviews"),
          ("link", urljoin FlipkartScraper.BASE_URL href), ("image", ""),
          ("timestamp", now), ("platform", "Flipkart")] ∧
       AmazonScraper.extract_product_info now c = some
         [("title", pyStrip t.text), ("description", ""),
          ("price", pyStrip p.text), ("rating", "No rating"),
          ("reviews", "No reviews"),
          ("link", urljoin AmazonScraper.BASE_URL href), ("image", ""),
          ("timestamp", now), ("platform", "Amazon")]) := by
  constructor
  · intro h
    rcases hti : c.title with _ | t
    · constructor <;>
        simp [FlipkartScraper.extract_product_info,
          AmazonScraper.extract_product_info, extractCore, hti]
    · rcases hpr : c.price with _ | p
      · constructor <;>
          simp [FlipkartScraper.extract_product_info,
            AmazonScraper.extract_product_info, extractCore, hti, hpr]
      · rcases hli : c.link with _ | l
        · constructor <;>
            simp [FlipkartScraper.extract_product_info,
              AmazonScraper.extract_product_info, extractCore, hti, hpr, hli]
        · exfalso
          rcases h with h | h | h <;> simp_all
  · intro t p l href ht hp hl hh hd hr hv hi
    constructor <;>
      simp [FlipkartScraper.extract_product_info,
        AmazonScraper.extract_product_info, extractCore,
        ht, hp, hl, hh, hd, hr, hv, hi]

/-- C3 witness: the container with only the required fields is emitted with
the documented defaults; dropping its title suppresses the record. -/
theorem extract_requires_title_price_link_witness :
    (FlipkartScraper.extract_product_info "T0" containerNoTitle = none ∧
     AmazonScraper.extract_product_info "T0" containerNoTitle = none) ∧
    (FlipkartScraper.extract_product_info "T0" containerRequiredOnly = some
       [("title", "Phone X"), ("description", ""), ("price", "999"),
        ("rating", "No rating"), ("reviews", "No reviews"),
        ("link", "https://www.flipkart.com/p/1"), ("image", ""),
        ("timestamp", "T0"), ("platform", "Flipkart")] ∧
     AmazonScraper.extract_product_info "T0" containerRequiredOnly = some
       [("title", "Phone X"), ("description", ""), ("price", "999"),
        ("rating", "No rating"), ("reviews", "No reviews"),
        ("link", "https://www.amazon.in/p/1"), ("image", ""),
        ("timestamp", "T0"), ("platform", "Amazon")]) := by
  exact ⟨(extract_requires_title_price_link "T0" containerNoTitle).1
           (Or.inl rfl),
         (extract_requires_title_price_link "T0" containerRequiredOnly).2
           tagTitle tagPrice tagLink "/p/1" rfl rfl rfl rfl rfl rfl rfl rfl⟩

/-- C4 evaluated: scrape_products accumulates and returns records but
performs no cache write — the cache file state passes through a scrape
unchanged, and in particular after a scrape that successfully collected five
records the file is still absent, because the body of scrape_products
(src/scraper.py lines 277-293) and its caller in src/bot.py contain no call
to save_to_cache. -/
theorem scrape_products_writes_no_cache :
    (∀ (gp : String → List Record) (num : Nat) (cats : List String)
       (file : CacheFile), (scrape_products_io gp num cats file).2 = file) ∧
    scrape_products_io gpABC 5 ["A", "B", "C"] .missing =
      (([recOf "A0", recOf "A1", recOf "A2", recOf "B0", recOf "B1"],
        ["A", "B"]), .missing) := by
  exact ⟨fun gp num cats file => rfl, by decide⟩

/-- C5: the first selector of the chain with at least one match supplies the
entire container list and the loop stops there — the number of selectors
evaluated is the winner's position plus one, and matches of later selectors
are ignored (no union); when every selector misses, the whole chain is
evaluated and a 200 page yields an empty record list with its status rather
than an error. -/
theorem selector_chain_short_circuit :
    (∀ (pre : List (List Container)) (cs : List Container)
       (rest : List (List Container)), (∀ l ∈ pre, l = []) → cs ≠ [] →
       pickContainers (pre ++ cs :: rest) = (cs, pre.length + 1)) ∧
    (∀ pre : List (List Container), (∀ l ∈ pre, l = []) →
       pickContainers pre = ([], pre.length)) ∧
    (∀ (baseURL platform now : String) (pre : List (List Container)),
       (∀ l ∈ pre, l = []) →
       get_products_core baseURL platform now (pre, 200) = ([], 200)) := by
  have hall : ∀ pre : List (List Container), (∀ l ∈ pre, l = []) →
      pickContainers pre = ([], pre.length) := by
    intro pre
    induction pre with
    | nil => intro _; rfl
    | cons l rest ih =>
      intro h
      have hl : l = [] := h l (List.mem_cons_self l rest)
      have hrest : ∀ l2 ∈ rest, l2 = [] :=
        fun l2 hm => h l2 (List.mem_cons_of_mem l hm)
      subst hl
      simp [pickContainers, ih hrest]
  have hfirst : ∀ (pre : List (List Container)) (cs : List Container)
      (rest : List (List Container)), (∀ l ∈ pre, l = []) → cs ≠ [] →
      pickContainers (pre ++ cs :: rest) = (cs, pre.length + 1) := by
    intro pre
    induction pre with
    | nil =>
      intro cs rest _ hcs
      cases cs with
      | nil => exact absurd rfl hcs
      | cons a as => simp [pickContainers]
    | cons l pre2 ih =>
      intro cs rest h hcs
      have hl : l = [] := h l (List.mem_cons_self l pre2)
      have hpre : ∀ l2 ∈ pre2, l2 = [] :=
        fun l2 hm => h l2 (List.mem_cons_of_mem l hm)
      subst hl
      simp [pickContainers, ih cs rest hpre hcs]
  refine ⟨hfirst, hall, ?_⟩
  intro baseURL platform now pre h
  simp [get_products_core, productsFromPage, hall pre h]

/-- C5 witness: with an empty first select, a one-container second select and
a later non-empty select, the second select's containers win after two
evaluations; two empty selects evaluate both, choose nothing, and the page
yields an empty record list with status 200. -/
theorem selector_chain_short_circuit_witness :
    pickContainers [[], [containerRequiredOnly], [containerNoTitle]] =
      ([containerRequiredOnly], 2) ∧
    pickContainers ([[], []] : List (List Container)) = ([], 2) ∧
    get_products_core FlipkartScraper.BASE_URL "Flipkart" "T0"
      ([[], []], 200) = ([], 200) := by
  refine ⟨?_, ?_, ?_⟩
  · exact selector_chain_short_circuit.1 [[]] [containerRequiredOnly]
      [[containerNoTitle]] (by simp) (by simp)
  · exact selector_chain_short_circuit.2.1 [[], []] (by simp)
  · exact selector_chain_short_circuit.2.2 FlipkartScraper.BASE_URL
      "Flipkart" "T0" [[], []] (by simp)

end Scraper

namespace Scraper

/-- C6: a products mapping written by save_to_cache at time t is returned
unchanged by a load performed at any time inside the expiry window. -/
theorem cache_round_trip (X : ProductsMap) (t tl : Int)
    (h : tl < t + CACHE_EXPIRY_DAYS * SECONDS_PER_DAY) :
    load_product_cache (save_to_cache X t) tl = X := by
  have h2 : t + CACHE_EXPIRY_DAYS * SECONDS_PER_DAY > tl := h
  simp [load_product_cache, save_to_cache, h2]

/-- C6 witness: a save at time 0 loaded back at time 0 returns the mapping. -/
theorem cache_round_trip_witness :
    (0 : Int) < 0 + CACHE_EXPIRY_DAYS * SECONDS_PER_DAY ∧
    load_product_cache (save_to_cache [("laptops", [recOf "A0"])] 0) 0 =
      [("laptops", [recOf "A0"])] := by
  exact ⟨by decide, cache_round_trip [("laptops", [recOf "A0"])] 0 0 (by decide)⟩

/-- C7: load_product_cache returns the empty mapping, without failing, when
the cache file is missing, when it is unreadable or corrupt, and when the
stored timestamp plus the expiry window does not exceed now; in particular
an envelope written expiry-window-plus-one seconds in the past loads as the
empty mapping whatever products it stores. -/
theorem cache_load_missing_corrupt_expired (now : Int) :
    load_product_cache .missing now = [] ∧
    load_product_cache .corrupt now = [] ∧
    (∀ c : Cache, c.timestamp + CACHE_EXPIRY_DAYS * SECONDS_PER_DAY ≤ now →
       load_product_cache (.ok c) now = []) ∧
    (∀ ps : ProductsMap,
       load_product_cache
         (.ok ⟨now - (CACHE_EXPIRY_DAYS * SECONDS_PER_DAY + 1), ps⟩) now
         = []) := by
  refine ⟨rfl, rfl, ?_, ?_⟩
  · intro c hc
    have hngt : ¬(c.timestamp + CACHE_EXPIRY_DAYS * SECONDS_PER_DAY > now) := by
      simp only [CACHE_EXPIRY_DAYS, SECONDS_PER_DAY] at hc ⊢
      omega
    simp [load_product_cache, hngt]
  · intro ps
    have hngt : ¬(now - (CACHE_EXPIRY_DAYS * SECONDS_PER_DAY + 1) +
        CACHE_EXPIRY_DAYS * SECONDS_PER_DAY > now) := by
      simp only [CACHE_EXPIRY_DAYS, SECONDS_PER_DAY]
      omega
    simp [load_product_cache, hngt]

/-- C7 witness: at time 86401 an envelope stamped 0 (one second beyond the
one-day window) loads as empty despite holding a product. -/
theorem cache_load_missing_corrupt_expired_witness :
    load_product_cache .missing 86401 = [] ∧
    load_product_cache .corrupt 86401 = [] ∧
    load_product_cache (.ok ⟨0, [("laptops", [recOf "A0"])]⟩) 86401 = [] ∧
    load_product_cache
      (.ok ⟨86401 - (CACHE_EXPIRY_DAYS * SECONDS_PER_DAY + 1),
            [("laptops", [recOf "A0"])]⟩) 86401 = [] := by
  exact ⟨(cache_load_missing_corrupt_expired 86401).1,
         (cache_load_missing_corrupt_expired 86401).2.1,
         (cache_load_missing_corrupt_expired 86401).2.2.1
           ⟨0, [("laptops", [recOf "A0"])]⟩ (by decide),
         (cache_load_missing_corrupt_expired 86401).2.2.2
           [("laptops", [recOf "A0"])]⟩

end Scraper

namespace Utils

/-- C8: generate_affiliate_link is total on URL strings (it cannot raise, so
the except branch returning the original URL is never needed) and always
returns an EarnKaro-tracked URL: the result is the tracking endpoint followed
by the percent-encoded product URL and the configured subid. -/
theorem generate_affiliate_link_tracked (url : String) :
    ∃ rest : String,
      generate_affiliate_link url =
        "https://earnkaro.com/flipkart?url=" ++ rest ∧
      rest = pyQuote (if url.startsWith "http" then url
                      else "https://www.flipkart.com" ++ url) ++
             ("&subid=" ++ EARNKARO_TRACKING_ID) := by
  exact ⟨_, rfl, rfl⟩

end Utils

namespace Scraper

theorem extractCore_shape (b pf now : String) (c : Container) (r : Record)
    (h : extractCore b pf now c = some r) :
    r.map Prod.fst = RECORD_KEYS ∧ List.lookup "platform" r = some pf := by
  rcases hti : c.title with _ | t
  · simp [extractCore, hti] at h
  · rcases hpr : c.price with _ | p
    · simp [extractCore, hti, hpr] at h
    · rcases hli : c.link with _ | l
      · simp [extractCore, hti, hpr, hli] at h
      · rcases hh : l.attrs.lookup "href" with _ | href
        · simp [extractCore, hti, hpr, hli, hh] at h
        · rcases him : c.image with _ | img
          · simp [extractCore, hti, hpr, hli, hh, him] at h
            subst h
            exact ⟨rfl, rfl⟩
          · rcases hsrc : img.attrs.lookup "src" with _ | src
            · simp [extractCore, hti, hpr, hli, hh, him, hsrc] at h
            · simp [extractCore, hti, hpr, hli, hh, him, hsrc] at h
              subst h
              exact ⟨rfl, rfl⟩

theorem mem_get_products_core (b pf now : String)
    (fetched : List (List Container) × Nat) (r : Record)
    (hr : r ∈ (get_products_core b pf now fetched).1) :
    ∃ cont ∈ (pickContainers fetched.1).1, extractCore b pf now cont = some r := by
  unfold get_products_core at hr
  split at hr
  · simp at hr
  · simpa [productsFromPage, List.mem_filterMap] using hr



/-- C10: every record produced by a whole scrape, for either platform
choice, is an association list whose keys are exactly title, description,
price, rating, reviews, link, image, timestamp, platform in dict order
(in particular the review-count field is keyed reviews, and every value is
a string by the type of Record), and its platform value is exactly Flipkart
or Amazon. -/
theorem scrape_record_shape (platform now : String)
    (pages : String → List (List Container) × Nat) (num : Nat)
    (cats : List String) (r : Record)
    (hr : r ∈ (scrape_products_pipeline platform now pages num cats).1) :
    r.map Prod.fst = RECORD_KEYS ∧
    (r.lookup "platform" = some "Flipkart" ∨
     r.lookup "platform" = some "Amazon") := by
  obtain ⟨c, _, hrc⟩ := mem_of_mem_scrape_products _ num cats r hr
  unfold platform_get_products at hrc
  by_cases hp : pyLower platform = "amazon"
  · rw [if_pos hp] at hrc
    obtain ⟨cont, _, hce⟩ := mem_get_products_core _ _ _ _ r hrc
    have hs := extractCore_shape _ _ _ _ _ hce
    exact ⟨hs.1, Or.inr hs.2⟩
  · rw [if_neg hp] at hrc
    obtain ⟨cont, _, hce⟩ := mem_get_products_core _ _ _ _ r hrc
    have hs := extractCore_shape _ _ _ _ _ hce
    exact ⟨hs.1, Or.inl hs.2⟩

/-- C10 witness: the concrete flipkart scrape over one category and one
container emits exactly the expected record, whose keys are the nine and
whose platform value is Flipkart. -/
theorem scrape_record_shape_witness :
    recPhoneFK ∈
      (scrape_products_pipeline "flipkart" "T0" pagesOneContainer 5
        ["laptops"]).1 ∧
    (recPhoneFK.map Prod.fst = RECORD_KEYS ∧
     (recPhoneFK.lookup "platform" = some "Flipkart" ∨
      recPhoneFK.lookup "platform" = some "Amazon")) := by
  exact ⟨by decide,
         scrape_record_shape "flipkart" "T0" pagesOneContainer 5 ["laptops"]
           recPhoneFK (by decide)⟩

end Scraper
